import Mathlib

/-!
Verification of the Lumina Python SDK (`packages/sdk-python/lumina`).

The SDK's interesting core is dynamically typed Python, so the embedding
works over a small model of Python runtime values (`PyVal`): attribute
probing (`getattr` with a default), truthiness, the short-circuiting `or`,
`+`, `in`, and `/`, the last three of which raise `TypeError` on
unsupported operand types.  Exceptions are modelled as a pair of an object
identity and a message, fallible computations as `Except Exc`.  Numeric
values (Python `int` and `float`) are modelled exactly, as `Int` and `Rat`.

Each definition mirrors one function (or one contiguous block) of
`lumina/lumina.py` or `lumina/config.py`, named after its source symbol.
-/

namespace Lumina

/-- A Python runtime value, as far as the SDK's attribute probing observes it:
`None`, strings, ints, floats, booleans, lists, attribute-bearing objects
(e.g. provider response objects, `SimpleNamespace`-likes), and un-awaited
awaitable (coroutine) objects whose eventual settled value is `inner`. -/
inductive PyVal where
  | none
  | vStr (s : String)
  | vInt (n : Int)
  | vFloat (q : Rat)
  | vBool (b : Bool)
  | vList (xs : List PyVal)
  | vObj (attrs : List (String × PyVal))
  | vAwaitable (inner : PyVal)

/-- A Python exception object: an object identity plus `str(exc)`.  Two
exceptions with the same message but different `eid` are distinct objects;
re-raising preserves the whole value. -/
structure Exc where
  eid : Nat
  msg : String
deriving DecidableEq

/-- `getattr(obj, name, default)`: only objects carry attributes; every other
value (and a missing attribute) yields the default. -/
def getattrD : PyVal → String → PyVal → PyVal
  | .vObj attrs, name, dflt =>
    match attrs.lookup name with
    | some v => v
    | Option.none => dflt
  | _, _, dflt => dflt

/-- Python truthiness: `None`, `""`, `0`, `0.0`, `False` and `[]` are falsy;
objects and awaitables are truthy. -/
def truthy : PyVal → Bool
  | .none => false
  | .vStr s => !s.isEmpty
  | .vInt n => n != 0
  | .vFloat q => q != 0
  | .vBool b => b
  | .vList xs => !xs.isEmpty
  | .vObj _ => true
  | .vAwaitable _ => true

/-- Python `a or b` (both operands already evaluated; used where the right
operand is effect-free). -/
def pyOr (a b : PyVal) : PyVal := if truthy a then a else b

/-- `isinstance(v, list)`. -/
def isPyList : PyVal → Bool
  | .vList _ => true
  | _ => false

/-- `isinstance(v, str)`. -/
def isPyStr : PyVal → Bool
  | .vStr _ => true
  | _ => false

/-- Python `v == lit` for a string literal `lit`: true exactly when `v` is that
string (cross-type `==` is `False`). -/
def pyEqStr : PyVal → String → Bool
  | .vStr s, t => s == t
  | _, _ => false

/-- Whether `needle` occurs contiguously inside the character list. -/
def occursWithin (needle : List Char) : List Char → Bool
  | [] => needle.isEmpty
  | c :: rest => needle.isPrefixOf (c :: rest) || occursWithin needle rest

/-- Python substring test `needle in hay` for strings. -/
def strContains (hay needle : String) : Bool :=
  occursWithin needle.data hay.data

/-- The `TypeError` raised by `+` on unsupported operand types. -/
def addTypeError : Exc := ⟨0, "TypeError: unsupported operand type(s) for +"⟩

/-- The `TypeError` raised by `in` on a non-container right operand. -/
def inTypeError : Exc := ⟨0, "TypeError: argument is not iterable"⟩

/-- The `TypeError` raised by `/` on unsupported operand types. -/
def divTypeError : Exc := ⟨0, "TypeError: unsupported operand type(s) for /"⟩

/-- Python `a + b` on the value kinds the SDK can reach: int/float addition,
string and list concatenation; anything else raises `TypeError`. -/
def pyAdd : PyVal → PyVal → Except Exc PyVal
  | .vInt a, .vInt b => .ok (.vInt (a + b))
  | .vInt a, .vFloat b => .ok (.vFloat ((a : Rat) + b))
  | .vFloat a, .vInt b => .ok (.vFloat (a + (b : Rat)))
  | .vFloat a, .vFloat b => .ok (.vFloat (a + b))
  | .vStr a, .vStr b => .ok (.vStr (a ++ b))
  | .vList a, .vList b => .ok (.vList (a ++ b))
  | _, _ => .error addTypeError

/-- Python `k in container` for a string `k`: substring test on strings,
membership on lists; a non-container raises `TypeError`. -/
def pyContains (container : PyVal) (k : String) : Except Exc Bool :=
  match container with
  | .vStr s => .ok (strContains s k)
  | .vList xs => .ok (xs.any (fun v => pyEqStr v k))
  | _ => .error inTypeError

/-- Coerce a value to a number for true division `v / 1_000_000`; non-numeric
operands raise `TypeError`. -/
def asNumber : PyVal → Except Exc Rat
  | .vInt n => .ok (n : Rat)
  | .vFloat q => .ok q
  | .vBool b => .ok (if b then 1 else 0)
  | _ => .error divTypeError

/-! Attribute keys from `lumina/semantic_conventions.py`. -/

def LLM_SYSTEM : String := "gen_ai.system"
def LLM_RESPONSE_MODEL : String := "gen_ai.response.model"
def LLM_RESPONSE_ID : String := "gen_ai.response.id"
def LLM_USAGE_PROMPT_TOKENS : String := "gen_ai.usage.prompt_tokens"
def LLM_USAGE_COMPLETION_TOKENS : String := "gen_ai.usage.completion_tokens"
def LLM_USAGE_TOTAL_TOKENS : String := "gen_ai.usage.total_tokens"
def LLM_PROMPT : String := "gen_ai.prompt"
def LLM_COMPLETION : String := "gen_ai.completion"
def LUMINA_ENVIRONMENT : String := "lumina.environment"
def LUMINA_SERVICE_NAME : String := "lumina.service_name"
def LUMINA_COST_USD : String := "lumina.cost_usd"
def LUMINA_TAGS : String := "lumina.tags"
def SPAN_NAME_LLM_REQUEST : String := "llm.request"

/-- `_PRICING` from `lumina.py` (per-1M-token USD prices, in the literal's
definition order, which is the dict's iteration order). -/
def _PRICING : List (String × Rat × Rat) :=
  [ ("gpt-4", (30, 60))
  , ("gpt-4-turbo", (10, 30))
  , ("gpt-3.5-turbo", (1/2, 3/2))
  , ("claude-sonnet-4", (3, 15))
  , ("claude-3-opus", (15, 75))
  , ("claude-3-sonnet", (3, 15))
  , ("claude-3-haiku", (1/4, 5/4)) ]

/-- `next((k for k in _PRICING if k in model), None)`: the first key of `ks`
contained in `model`, evaluating `k in model` left to right (which raises
`TypeError` when `model` is not a container). -/
def firstKeyIn : List String → PyVal → Except Exc (Option String)
  | [], _ => .ok Option.none
  | k :: ks, model => do
    let b ← pyContains model k
    if b then pure (some k) else firstKeyIn ks model

/-- `_calculate_cost(model, prompt_tokens, completion_tokens)`.  The arguments
arrive from dynamic attribute reads, so they are arbitrary values; `in` and
`/` raise `TypeError` on unsupported operands. -/
def _calculate_cost (model prompt_tokens completion_tokens : PyVal) :
    Except Exc Rat := do
  let model_key ← firstKeyIn (_PRICING.map Prod.fst) model
  let prices := (_PRICING.lookup (model_key.getD "")).getD (1, 2)
  let pt ← asNumber prompt_tokens
  let ct ← asNumber completion_tokens
  return pt / 1000000 * prices.1 + ct / 1000000 * prices.2

/-- Completion-text extraction block of `_set_llm_post_attrs` (lumina.py lines
285-303): the value of the local `completion` after the OpenAI branch
(`choices[0].message.content`), the Anthropic branch (`content[0].text` when
the first block's `type` is `"text"`), or a plain-string `content`. -/
def extractCompletion (result : PyVal) : PyVal :=
  let choices := getattrD result "choices" .none
  if truthy choices && isPyList choices then
    match choices with
    | .vList (c0 :: _) =>
      let msg := getattrD c0 "message" .none
      if truthy msg then pyOr (getattrD msg "content" .none) (.vStr "") else .vStr ""
    | _ => .vStr ""
  else
    match getattrD result "content" .none with
    | .vList (first :: _) =>
      if pyEqStr (getattrD first "type" .none) "text" then
        pyOr (getattrD first "text" (.vStr "")) (.vStr "")
      else .vStr ""
    | .vStr s => .vStr s
    | _ => .vStr ""

/-- Token-count block of `_set_llm_post_attrs` (lines 307-317): the locals
`prompt_tokens`, `completion_tokens`, `total_tokens`.  The `or`-chains follow
Python truthiness, and the fallback `prompt_tokens + completion_tokens` for a
falsy `total_tokens` can raise `TypeError` on non-numeric operands. -/
def usageTokens (usage : PyVal) : Except Exc (PyVal × PyVal × PyVal) := do
  let pt := pyOr (pyOr (getattrD usage "prompt_tokens" .none)
                       (getattrD usage "input_tokens" .none)) (.vInt 0)
  let ct := pyOr (pyOr (getattrD usage "completion_tokens" .none)
                       (getattrD usage "output_tokens" .none)) (.vInt 0)
  let ttRaw := getattrD usage "total_tokens" .none
  let tt ← if truthy ttRaw then pure ttRaw else pyAdd pt ct
  pure (pt, ct, tt)

/-- `_set_llm_post_attrs(span, result)` (lines 276-328): the sequence of
`span.set_attribute` writes it performs, paired with the exception if one is
raised partway (writes made before the raise are kept; the exception
propagates out of the method). -/
def _set_llm_post_attrs (result : PyVal) : List (String × PyVal) × Option Exc :=
  let model := pyOr (getattrD result "model" (.vStr "")) (.vStr "")
  let a1 := if truthy model then [(LLM_RESPONSE_MODEL, model)] else []
  let response_id := pyOr (getattrD result "id" (.vStr "")) (.vStr "")
  let a2 := if truthy response_id then [(LLM_RESPONSE_ID, response_id)] else []
  let completion := extractCompletion result
  let a3 := if truthy completion then [(LLM_COMPLETION, completion)] else []
  let usage := getattrD result "usage" .none
  if truthy usage then
    match usageTokens usage with
    | .error e => (a1 ++ a2 ++ a3, some e)
    | .ok (pt, ct, tt) =>
      let a4 := if truthy pt then [(LLM_USAGE_PROMPT_TOKENS, pt)] else []
      let a5 := if truthy ct then [(LLM_USAGE_COMPLETION_TOKENS, ct)] else []
      let a6 := if truthy tt then [(LLM_USAGE_TOTAL_TOKENS, tt)] else []
      match _calculate_cost model pt ct with
      | .error e => (a1 ++ a2 ++ a3 ++ a4 ++ a5 ++ a6, some e)
      | .ok cost =>
        let a7 := if 0 < cost then [(LUMINA_COST_USD, .vFloat cost)] else []
        (a1 ++ a2 ++ a3 ++ a4 ++ a5 ++ a6 ++ a7, Option.none)
  else (a1 ++ a2 ++ a3, Option.none)

/-! ## Span lifecycle -/

/-- A terminal status write (`span.set_status`). -/
inductive SpanStatus where
  | statusOk
  | statusError (msg : String)
deriving DecidableEq

/-- One OpenTelemetry span, as the tracer manipulates it: the attribute
writes, every `set_status` call, every `record_exception` call, and whether
the span has been ended (the `with start_as_current_span` block exited,
handing the span to the processor). -/
structure Span where
  name : String
  attrs : List (String × PyVal)
  statuses : List SpanStatus
  recorded : List Exc
  ended : Bool

/-- `json.dumps` of a plain string (escaping of special characters is not
modelled; the tags the SDK serializes are plain). -/
def jsonStr (s : String) : String := "\"" ++ s ++ "\""

/-- `json.dumps` of a list of plain strings. -/
def jsonStrList (ts : List String) : String :=
  "[" ++ String.intercalate ", " (ts.map jsonStr) ++ "]"

/-- `_set_common_attrs(span, metadata, tags)` (lines 253-266): the attribute
writes it performs.  Metadata values are taken already JSON-encoded (each
value passes through `json.dumps`); `if metadata:` / `if tags:` /
`if self.config.service_name:` are Python truthiness tests, so `None`, an
empty dict/list and an empty string all skip the corresponding write. -/
def _set_common_attrs (environment : String) (service_name : Option String)
    (metadata : Option (List (String × String))) (tags : Option (List String)) :
    List (String × PyVal) :=
  (match metadata with
   | some md => md.map (fun kv => (kv.1, PyVal.vStr kv.2))
   | Option.none => []) ++
  (match tags with
   | some ts =>
     if ts.isEmpty then [] else [(LUMINA_TAGS, PyVal.vStr (jsonStrList ts))]
   | Option.none => []) ++
  [(LUMINA_ENVIRONMENT, PyVal.vStr environment)] ++
  (match service_name with
   | some sn => if sn.isEmpty then [] else [(LUMINA_SERVICE_NAME, PyVal.vStr sn)]
   | Option.none => [])

/-- `_trace_sync(name, fn, metadata=..., tags=...)` (lines 163-184).
`body` is `fn(span)` as a state transformer on the active span (it may write
attributes) returning the unit of work's outcome; `dms` stands for the
measured `int((time.monotonic() - start) * 1000)`.  Returns the spans ended
(handed to the span processor by the `with` block) and the call's outcome:
the result returned, or the exception re-raised by the bare `raise`. -/
def _trace_sync (name environment : String) (service_name : Option String)
    (metadata : Option (List (String × String))) (tags : Option (List String))
    (body : Span → Span × Except Exc PyVal) (dms : Int) :
    List Span × Except Exc PyVal :=
  let s0 : Span :=
    { name := name, attrs := [], statuses := [], recorded := [], ended := false }
  let s1 := { s0 with
    attrs := s0.attrs ++ _set_common_attrs environment service_name metadata tags }
  match body s1 with
  | (s2, .ok r) =>
    ([{ s2 with
        attrs := s2.attrs ++ [("duration_ms", PyVal.vInt dms)],
        statuses := s2.statuses ++ [SpanStatus.statusOk],
        ended := true }], .ok r)
  | (s2, .error e) =>
    ([{ s2 with
        recorded := s2.recorded ++ [e],
        statuses := s2.statuses ++ [SpanStatus.statusError e.msg],
        ended := true }], .error e)

/-- `_trace_async(name, fn, metadata=..., tags=...)` (lines 208-229): the same
span lifecycle as `_trace_sync`, with `result = await fn(span)`; awaiting is
transparent in the embedding, the unit of work's settled outcome is what
`body` returns. -/
def _trace_async (name environment : String) (service_name : Option String)
    (metadata : Option (List (String × String))) (tags : Option (List String))
    (body : Span → Span × Except Exc PyVal) (dms : Int) :
    List Span × Except Exc PyVal :=
  let s0 : Span :=
    { name := name, attrs := [], statuses := [], recorded := [], ended := false }
  let s1 := { s0 with
    attrs := s0.attrs ++ _set_common_attrs environment service_name metadata tags }
  match body s1 with
  | (s2, .ok r) =>
    ([{ s2 with
        attrs := s2.attrs ++ [("duration_ms", PyVal.vInt dms)],
        statuses := s2.statuses ++ [SpanStatus.statusOk],
        ended := true }], .ok r)
  | (s2, .error e) =>
    ([{ s2 with
        recorded := s2.recorded ++ [e],
        statuses := s2.statuses ++ [SpanStatus.statusError e.msg],
        ended := true }], .error e)

/-- `_set_llm_pre_attrs(span, system, prompt)` (lines 268-274): `if system:` /
`if prompt:` are truthiness tests. -/
def _set_llm_pre_attrs (system prompt : Option String) : List (String × PyVal) :=
  (match system with
   | some s => if s.isEmpty then [] else [(LLM_SYSTEM, PyVal.vStr s)]
   | Option.none => []) ++
  (match prompt with
   | some p => if p.isEmpty then [] else [(LLM_PROMPT, PyVal.vStr p)]
   | Option.none => [])

/-- `_inner(span)` of `_trace_llm_sync` / `_trace_llm_async` (lines 196-200 and
241-245): write pre-call attributes, run `fn()` (resp. `await fn()`), then run
`_set_llm_post_attrs` on the result — with no exception handling of its own,
so a failure of the unit of work or of extraction propagates to the enclosing
`_trace_sync` / `_trace_async`. -/
def llmInner (system prompt : Option String) (fn : Except Exc PyVal)
    (span : Span) : Span × Except Exc PyVal :=
  let s1 := { span with attrs := span.attrs ++ _set_llm_pre_attrs system prompt }
  match fn with
  | .error e => (s1, .error e)
  | .ok r =>
    let post := _set_llm_post_attrs r
    let s2 := { s1 with attrs := s1.attrs ++ post.1 }
    match post.2 with
    | some e => (s2, .error e)
    | Option.none => (s2, .ok r)

/-- `_trace_llm_sync` (lines 186-202). -/
def _trace_llm_sync (name environment : String) (service_name : Option String)
    (metadata : Option (List (String × String))) (tags : Option (List String))
    (system prompt : Option String) (fn : Except Exc PyVal) (dms : Int) :
    List Span × Except Exc PyVal :=
  _trace_sync name environment service_name metadata tags
    (llmInner system prompt fn) dms

/-- `_trace_llm_async` (lines 231-247). -/
def _trace_llm_async (name environment : String) (service_name : Option String)
    (metadata : Option (List (String × String))) (tags : Option (List String))
    (system prompt : Option String) (fn : Except Exc PyVal) (dms : Int) :
    List Span × Except Exc PyVal :=
  _trace_async name environment service_name metadata tags
    (llmInner system prompt fn) dms

/-- A zero-argument Python callable as supplied to `trace_llm`: either a plain
function or a coroutine function (`async def`).  `outcome` is what running it
to completion yields; a plain function that merely builds an awaitable
without awaiting it has outcome `.ok (.vAwaitable r)`. -/
inductive PyCallable where
  | plain (outcome : Except Exc PyVal)
  | coroutineFn (outcome : Except Exc PyVal)

/-- `inspect.iscoroutinefunction(fn)`. -/
def iscoroutinefunction : PyCallable → Bool
  | .plain _ => false
  | .coroutineFn _ => true

/-- The outcome of running the callable to completion. -/
def outcomeOf : PyCallable → Except Exc PyVal
  | .plain o => o
  | .coroutineFn o => o

/-- `trace_llm` (lines 121-143): dispatch on `inspect.iscoroutinefunction`. -/
def trace_llm (name environment : String) (service_name : Option String)
    (metadata : Option (List (String × String))) (tags : Option (List String))
    (system prompt : Option String) (fn : PyCallable) (dms : Int) :
    List Span × Except Exc PyVal :=
  if iscoroutinefunction fn then
    _trace_llm_async name environment service_name metadata tags system prompt
      (outcomeOf fn) dms
  else
    _trace_llm_sync name environment service_name metadata tags system prompt
      (outcomeOf fn) dms

/-- A callable as supplied to generic `trace`: it receives the active span and
may write attributes; plain or coroutine function. -/
inductive PyCallableS where
  | plain (run : Span → Span × Except Exc PyVal)
  | coroutineFn (run : Span → Span × Except Exc PyVal)

/-- `inspect.iscoroutinefunction(fn)` for span-taking callables. -/
def iscoroutinefunctionS : PyCallableS → Bool
  | .plain _ => false
  | .coroutineFn _ => true

/-- The callable's body as a span transformer. -/
def runOf : PyCallableS → Span → Span × Except Exc PyVal
  | .plain b => b
  | .coroutineFn b => b

/-- `trace` (lines 99-119): dispatch on `inspect.iscoroutinefunction`. -/
def trace (name environment : String) (service_name : Option String)
    (metadata : Option (List (String × String))) (tags : Option (List String))
    (fn : PyCallableS) (dms : Int) : List Span × Except Exc PyVal :=
  if iscoroutinefunctionS fn then
    _trace_async name environment service_name metadata tags (runOf fn) dms
  else
    _trace_sync name environment service_name metadata tags (runOf fn) dms

/-! ## Configuration (`lumina/config.py`, `lumina/types.py`) -/

/-- The `SdkConfig` dataclass.  Fields hold arbitrary Python values because
`load_sdk_config` applies caller overrides with `setattr(config, key, value)`,
which performs no type check. -/
structure SdkConfig where
  endpoint : PyVal
  environment : PyVal
  enabled : PyVal
  batch_size : PyVal
  batch_interval_ms : PyVal
  timeout_ms : PyVal
  max_retries : PyVal
  api_key : PyVal
  service_name : PyVal
  customer_id : PyVal
  flush_interval_ms : PyVal

/-- `os.environ.get(k, dflt)` over an environment snapshot. -/
def envGet (env : List (String × String)) (k dflt : String) : String :=
  (env.lookup k).getD dflt

/-- `os.environ.get(k)` (defaulting to `None`). -/
def envGetOpt (env : List (String × String)) (k : String) : PyVal :=
  match env.lookup k with
  | some s => .vStr s
  | Option.none => .none

/-- `str.lower()` (ASCII case folding suffices for the values compared). -/
def strToLower (s : String) : String := String.mk (s.data.map Char.toLower)

/-- Decimal digit-string parse. -/
def natOfDigits (cs : List Char) : Option Nat :=
  if cs.isEmpty then Option.none
  else cs.foldl (fun acc c =>
    match acc with
    | some n => if c.isDigit then some (n * 10 + (c.toNat - 48)) else Option.none
    | Option.none => Option.none) (some 0)

/-- Python `int(s)` on an environment string: a decimal parse with optional
leading minus, raising `ValueError` on malformed input (this models the
fail-fast behaviour for bad numeric environment values). -/
def pyIntOf (s : String) : Except Exc Int :=
  match s.data with
  | '-' :: rest =>
    match natOfDigits rest with
    | some n => .ok (-(n : Int))
    | Option.none => .error ⟨0, "ValueError: invalid literal for int"⟩
  | cs =>
    match natOfDigits cs with
    | some n => .ok ((n : Int))
    | Option.none => .error ⟨0, "ValueError: invalid literal for int"⟩

/-- `setattr(config, key, value)` restricted to the keys for which
`hasattr(config, key)` holds; any other key leaves the record unchanged
(`load_sdk_config` skips it). -/
def setField (c : SdkConfig) (k : String) (v : PyVal) : SdkConfig :=
  match k with
  | "endpoint" => { c with endpoint := v }
  | "environment" => { c with environment := v }
  | "enabled" => { c with enabled := v }
  | "batch_size" => { c with batch_size := v }
  | "batch_interval_ms" => { c with batch_interval_ms := v }
  | "timeout_ms" => { c with timeout_ms := v }
  | "max_retries" => { c with max_retries := v }
  | "api_key" => { c with api_key := v }
  | "service_name" => { c with service_name := v }
  | "customer_id" => { c with customer_id := v }
  | "flush_interval_ms" => { c with flush_interval_ms := v }
  | _ => c

/-- The `value is None` test. -/
def isNone : PyVal → Bool
  | .none => true
  | _ => false

/-- The override loop of `load_sdk_config` (config.py lines 30-33): in dict
iteration (insertion) order, apply each entry whose key is a config attribute
and whose value `is not None`. -/
def applyOverrides (c : SdkConfig) : List (String × PyVal) → SdkConfig
  | [] => c
  | (k, v) :: rest =>
    applyOverrides (if isNone v then c else setField c k v) rest

/-- `load_sdk_config(overrides)` (config.py lines 9-35): environment-sourced
defaults, `flush_interval_ms` copied from the environment-derived
`batch_interval_ms`, then overrides applied last, field by field. -/
def load_sdk_config (env : List (String × String))
    (overrides : Option (List (String × PyVal))) : Except Exc SdkConfig := do
  let enabled_str := strToLower (envGet env "LUMINA_ENABLED" "true")
  let enabled := !(["false", "0", "no"].contains enabled_str)
  let batch_interval_ms ← pyIntOf (envGet env "LUMINA_BATCH_INTERVAL_MS" "5000")
  let batch_size ← pyIntOf (envGet env "LUMINA_BATCH_SIZE" "10")
  let max_retries ← pyIntOf (envGet env "LUMINA_MAX_RETRIES" "3")
  let timeout_ms ← pyIntOf (envGet env "LUMINA_TIMEOUT_MS" "30000")
  let config : SdkConfig :=
    { api_key := envGetOpt env "LUMINA_API_KEY"
    , endpoint := .vStr (envGet env "LUMINA_ENDPOINT" "http://localhost:9411/v1/traces")
    , service_name := envGetOpt env "LUMINA_SERVICE_NAME"
    , environment := .vStr (envGet env "LUMINA_ENVIRONMENT" "live")
    , customer_id := envGetOpt env "LUMINA_CUSTOMER_ID"
    , enabled := .vBool enabled
    , batch_size := .vInt batch_size
    , batch_interval_ms := .vInt batch_interval_ms
    , flush_interval_ms := .vInt batch_interval_ms
    , max_retries := .vInt max_retries
    , timeout_ms := .vInt timeout_ms }
  match overrides with
  | some ov => return (if ov.isEmpty then config else applyOverrides config ov)
  | Option.none => return config

/-- Modelled from the spec's lookup rule: the price pair of the first
Pricing-Table entry, in table definition order, whose key is a substring of
the model id; the default pair when no entry's key matches. -/
def specPriceFor (model_id : String) : Rat × Rat :=
  ((_PRICING.find? (fun kv => strContains model_id kv.1)).map Prod.snd).getD (1, 2)

/-! ## Theorems -/

/-- `s or ""` is `s` for a string `s` (if `s` is falsy it is already `""`). -/
theorem pyOr_str_empty (s : String) : pyOr (.vStr s) (.vStr "") = .vStr s := by
  unfold pyOr truthy
  by_cases h : s.isEmpty
  · rw [String.isEmpty_iff] at h
    subst h
    simp
  · simp [h]

/-- Truthiness of a list value. -/
theorem truthy_vList (xs : List PyVal) : truthy (.vList xs) = !xs.isEmpty := rfl

/-- Truthiness of `None`. -/
theorem truthy_none : truthy .none = false := rfl

/-- Every list value is a `list` instance. -/
theorem isPyList_vList (xs : List PyVal) : isPyList (.vList xs) = true := rfl

/-- C4: for every well-formed provider-A (OpenAI-shaped) response — a
non-empty `choices` list whose first choice carries a message whose `content`
is a string — the extracted completion text equals that content; and for
every provider-B (Anthropic-shaped) response (one with no `choices`
attribute), a `content` list whose first block has `type = "text"` and a
string `text` field yields exactly that text, while a plain-string `content`
is taken verbatim. -/
theorem C4_completion_extraction (r : PyVal) :
    (∀ c0 cs s, getattrD r "choices" .none = .vList (c0 :: cs) →
      truthy (getattrD c0 "message" .none) = true →
      getattrD (getattrD c0 "message" .none) "content" .none = .vStr s →
      extractCompletion r = .vStr s) ∧
    (getattrD r "choices" .none = .none →
      (∀ b bs t, getattrD r "content" .none = .vList (b :: bs) →
        getattrD b "type" .none = .vStr "text" →
        getattrD b "text" (.vStr "") = .vStr t →
        extractCompletion r = .vStr t) ∧
      (∀ s, getattrD r "content" .none = .vStr s →
        extractCompletion r = .vStr s)) := by
  constructor
  · intro c0 cs s hch hmsg hcont
    simp [extractCompletion, hch, truthy_vList, isPyList_vList, hmsg, hcont,
      pyOr_str_empty]
  · intro hch
    constructor
    · intro b bs t hcont htype htext
      simp [extractCompletion, hch, truthy_none, hcont, htype, htext, pyEqStr,
        pyOr_str_empty]
    · intro s hcont
      simp [extractCompletion, hch, truthy_none, hcont]

/-- Witness for C4 at the two provider shapes: an OpenAI-shaped response with
`choices[0].message.content = "Paris"` and an Anthropic-shaped response with
`content = [{type: "text", text: "Bonjour"}]`, plus a plain-string `content`. -/
theorem C4_completion_extraction_witness :
    extractCompletion (.vObj
      [("choices", .vList [.vObj [("message", .vObj [("content", .vStr "Paris")])]])])
      = .vStr "Paris" ∧
    extractCompletion (.vObj
      [("content", .vList [.vObj [("type", .vStr "text"), ("text", .vStr "Bonjour")]])])
      = .vStr "Bonjour" ∧
    extractCompletion (.vObj [("content", .vStr "plain")]) = .vStr "plain" := by
  refine ⟨?_, ?_, ?_⟩
  · exact (C4_completion_extraction
      (.vObj [("choices",
        .vList [.vObj [("message", .vObj [("content", .vStr "Paris")])]])])).1
      _ [] "Paris" rfl rfl rfl
  · exact ((C4_completion_extraction
      (.vObj [("content",
        .vList [.vObj [("type", .vStr "text"), ("text", .vStr "Bonjour")]])])).2
      rfl).1 _ [] "Bonjour" rfl rfl rfl
  · exact ((C4_completion_extraction
      (.vObj [("content", .vStr "plain")])).2 rfl).2 "plain" rfl

/-- C7: for every response without a `usage` sub-object, `_set_llm_post_attrs`
raises nothing and writes none of the prompt, completion or total token
attribute keys (they are omitted entirely, not set to zero). -/
theorem C7_no_usage_no_token_attrs (r : PyVal)
    (h : getattrD r "usage" .none = .none) :
    (_set_llm_post_attrs r).2 = Option.none ∧
    ∀ k v, (k, v) ∈ (_set_llm_post_attrs r).1 →
      k ≠ LLM_USAGE_PROMPT_TOKENS ∧ k ≠ LLM_USAGE_COMPLETION_TOKENS ∧
      k ≠ LLM_USAGE_TOTAL_TOKENS := by
  constructor
  · simp [_set_llm_post_attrs, h, truthy_none]
  · intro k v hm
    simp only [_set_llm_post_attrs, h, truthy_none, Bool.false_eq_true,
      if_false, List.mem_append] at hm
    rcases hm with (hm | hm) | hm <;>
      (split at hm <;>
        simp_all [LLM_RESPONSE_MODEL, LLM_RESPONSE_ID, LLM_COMPLETION,
          LLM_USAGE_PROMPT_TOKENS, LLM_USAGE_COMPLETION_TOKENS,
          LLM_USAGE_TOTAL_TOKENS])

/-- Witness for C7: a response carrying only a model id and no usage object
has no raised extraction error and its single written attribute key is the
response-model key, not a token key. -/
theorem C7_no_usage_no_token_attrs_witness :
    (_set_llm_post_attrs (PyVal.vObj [("model", PyVal.vStr "gpt-4")])).2
      = Option.none ∧
    (LLM_RESPONSE_MODEL ≠ LLM_USAGE_PROMPT_TOKENS ∧
     LLM_RESPONSE_MODEL ≠ LLM_USAGE_COMPLETION_TOKENS ∧
     LLM_RESPONSE_MODEL ≠ LLM_USAGE_TOTAL_TOKENS) :=
  ⟨(C7_no_usage_no_token_attrs (PyVal.vObj [("model", PyVal.vStr "gpt-4")]) rfl).1,
   (C7_no_usage_no_token_attrs (PyVal.vObj [("model", PyVal.vStr "gpt-4")]) rfl).2
     LLM_RESPONSE_MODEL (PyVal.vStr "gpt-4") (List.Mem.head _)⟩

/-- `next((k for k in _PRICING if k in model), None)` on a string-valued
model never raises and is the first key that is a substring of the model. -/
theorem firstKeyIn_str (m : String) (ks : List String) :
    firstKeyIn ks (.vStr m) = .ok (ks.find? (fun k => strContains m k)) := by
  induction ks with
  | nil => rfl
  | cons k ks ih =>
    by_cases h : strContains m k
    · simp [firstKeyIn, pyContains, List.find?, h, Bind.bind, Except.bind,
        pure, Except.pure]
    · simp [firstKeyIn, pyContains, List.find?, h, ih, Bind.bind, Except.bind]

/-- First-substring-match over the dict's keys followed by a dict get is the
same as picking the first matching entry directly, provided `""` is not a key
(the code's `model_key or ""` fallback then hits the dict's default). -/
theorem lookup_of_keys_find (p : String → Bool) (l : List (String × Rat × Rat))
    (hnil : l.lookup "" = Option.none) :
    (l.lookup (((l.map Prod.fst).find? p).getD "")).getD (1, 2) =
      ((l.find? (fun kv => p kv.1)).map Prod.snd).getD (1, 2) := by
  induction l with
  | nil => rfl
  | cons hd tl ih =>
    have hhd : ("" == hd.1) = false := by
      by_cases hq : ("" == hd.1) = true
      · exfalso
        rw [show hd = (hd.1, hd.2) from rfl] at hnil
        simp [List.lookup, hq] at hnil
      · exact Bool.not_eq_true _ |>.mp hq
    have htl : tl.lookup "" = Option.none := by
      rw [show hd = (hd.1, hd.2) from rfl] at hnil
      simpa [List.lookup, hhd] using hnil
    by_cases hp : p hd.1
    · simp [List.find?, hp, List.lookup]
    · rcases hk : (tl.map Prod.fst).find? p with _ | k
      · have h2 : tl.find? (fun kv => p kv.1) = Option.none := by
          rw [List.find?_eq_none] at hk ⊢
          intro kv hkv hpkv
          exact hk kv.1 (List.mem_map_of_mem Prod.fst hkv) hpkv
        simp [List.find?, hp, hk, List.lookup, hhd, h2, htl]
      · have hpk : p k = true := List.find?_some hk
        have hne : (k == hd.1) = false := by
          by_cases hq : k = hd.1
          · rw [hq] at hpk; rw [hpk] at hp; exact absurd rfl hp
          · simpa using hq
        have h3 := ih htl
        rw [hk] at h3
        simp only [List.find?, hp, hk, List.lookup, hne, List.map_cons,
          Option.getD_some]
        exact h3

/-- C5: for every model id and integer token counts, the estimated cost is
`prompt_tokens/1e6 * input_price + completion_tokens/1e6 * output_price`
where the price pair is the first pricing-table entry (in definition order)
whose key is a substring of the model id, and the default pair `(1, 2)` when
no entry's key is a substring of the model id. -/
theorem C5_cost_formula (m : String) (p c : Int) :
    _calculate_cost (.vStr m) (.vInt p) (.vInt c) =
      .ok ((p : Rat) / 1000000 * (specPriceFor m).1 +
           (c : Rat) / 1000000 * (specPriceFor m).2) ∧
    ((∀ kv ∈ _PRICING, strContains m kv.1 = false) → specPriceFor m = (1, 2)) := by
  constructor
  · unfold _calculate_cost
    rw [firstKeyIn_str]
    unfold specPriceFor
    rw [← lookup_of_keys_find (fun k => strContains m k) _PRICING rfl]
    rfl
  · intro h
    unfold specPriceFor
    rw [List.find?_eq_none.mpr (by intro kv hkv; simp [h kv hkv])]
    rfl

/-- Witness for C5: a model matching no pricing key is billed at the default
pair `(1, 2)`: one million prompt and two million completion tokens cost
`1*1 + 2*2 = 5` USD. -/
theorem C5_cost_formula_witness :
    _calculate_cost (.vStr "unpriced-model") (.vInt 1000000) (.vInt 2000000)
      = .ok 5 ∧
    specPriceFor "unpriced-model" = (1, 2) := by
  have h := C5_cost_formula "unpriced-model" 1000000 2000000
  have hd : specPriceFor "unpriced-model" = (1, 2) := h.2 (by decide)
  refine ⟨?_, hd⟩
  rw [h.1, hd]
  simp only [Except.ok.injEq]
  norm_num

/-- `_trace_sync` always ends and hands off exactly one span, carrying exactly
one status: OK if the body returned, ERROR with the exception's message if it
raised — provided the body itself adds no status (it may write attributes). -/
theorem trace_sync_lifecycle (name environment : String) (svc : Option String)
    (md : Option (List (String × String))) (tg : Option (List String))
    (body : Span → Span × Except Exc PyVal) (dms : Int)
    (hb : ∀ s, ((body s).1).statuses = s.statuses) :
    (_trace_sync name environment svc md tg body dms).1.length = 1 ∧
    ∀ sp ∈ (_trace_sync name environment svc md tg body dms).1,
      sp.ended = true ∧
      sp.statuses =
        [match (_trace_sync name environment svc md tg body dms).2 with
         | .ok _ => SpanStatus.statusOk
         | .error e => SpanStatus.statusError e.msg] := by
  have h := hb ⟨name, [] ++ _set_common_attrs environment svc md tg, [], [], false⟩
  simp only [_trace_sync]
  rcases hres : body ⟨name, [] ++ _set_common_attrs environment svc md tg,
      [], [], false⟩ with ⟨s2, out⟩
  rw [hres] at h
  simp only [] at h
  cases out with
  | ok r => simp at h ⊢; simp [h]
  | error e => simp at h ⊢; simp [h]

/-- `_trace_async`: the same lifecycle guarantee as `_trace_sync`. -/
theorem trace_async_lifecycle (name environment : String) (svc : Option String)
    (md : Option (List (String × String))) (tg : Option (List String))
    (body : Span → Span × Except Exc PyVal) (dms : Int)
    (hb : ∀ s, ((body s).1).statuses = s.statuses) :
    (_trace_async name environment svc md tg body dms).1.length = 1 ∧
    ∀ sp ∈ (_trace_async name environment svc md tg body dms).1,
      sp.ended = true ∧
      sp.statuses =
        [match (_trace_async name environment svc md tg body dms).2 with
         | .ok _ => SpanStatus.statusOk
         | .error e => SpanStatus.statusError e.msg] := by
  have h := hb ⟨name, [] ++ _set_common_attrs environment svc md tg, [], [], false⟩
  simp only [_trace_async]
  rcases hres : body ⟨name, [] ++ _set_common_attrs environment svc md tg,
      [], [], false⟩ with ⟨s2, out⟩
  rw [hres] at h
  simp only [] at h
  cases out with
  | ok r => simp at h ⊢; simp [h]
  | error e => simp at h ⊢; simp [h]

/-- The LLM inner body writes attributes only: it never touches the span's
status list. -/
theorem llmInner_statuses (sys pr : Option String) (fn : Except Exc PyVal)
    (s : Span) : ((llmInner sys pr fn s).1).statuses = s.statuses := by
  cases fn with
  | error e => rfl
  | ok r =>
    simp only [llmInner]
    rcases _set_llm_post_attrs r with ⟨post, err⟩
    cases err <;> rfl

/-- C1 (amended): for every call to `trace`/`trace_llm`, on both the
synchronous and the asynchronous execution path, exactly one span is created
and handed to the processor, it is ended on every exit path, and exactly one
terminal status is set on it — OK when the traced body (the unit of work
together with, for `trace_llm`, attribute extraction) completes normally,
ERROR when it raises.  For the generic `trace` the body is the unit of work
itself, so there the status is keyed on the unit of work exactly; for
`trace_llm` an unguarded extraction failure after a normal return also
yields ERROR (the counterexample below).  The hypothesis for `trace` says
the caller-supplied body does not itself call `set_status`; the bodies
`trace_llm` builds never do. -/
theorem C1_one_span_one_status (name environment : String) (svc : Option String)
    (md : Option (List (String × String))) (tg : Option (List String))
    (dms : Int) (sys pr : Option String) :
    (∀ fnS : PyCallableS, (∀ s, ((runOf fnS s).1).statuses = s.statuses) →
      (trace name environment svc md tg fnS dms).1.length = 1 ∧
      ∀ sp ∈ (trace name environment svc md tg fnS dms).1,
        sp.ended = true ∧
        sp.statuses =
          [match (trace name environment svc md tg fnS dms).2 with
           | .ok _ => SpanStatus.statusOk
           | .error e => SpanStatus.statusError e.msg]) ∧
    (∀ fn : PyCallable,
      (trace_llm name environment svc md tg sys pr fn dms).1.length = 1 ∧
      ∀ sp ∈ (trace_llm name environment svc md tg sys pr fn dms).1,
        sp.ended = true ∧
        sp.statuses =
          [match (trace_llm name environment svc md tg sys pr fn dms).2 with
           | .ok _ => SpanStatus.statusOk
           | .error e => SpanStatus.statusError e.msg]) := by
  constructor
  · intro fnS hb
    cases fnS with
    | plain b => exact trace_sync_lifecycle name environment svc md tg b dms hb
    | coroutineFn b => exact trace_async_lifecycle name environment svc md tg b dms hb
  · intro fn
    cases fn with
    | plain o =>
      exact trace_sync_lifecycle name environment svc md tg (llmInner sys pr o)
        dms (llmInner_statuses sys pr o)
    | coroutineFn o =>
      exact trace_async_lifecycle name environment svc md tg (llmInner sys pr o)
        dms (llmInner_statuses sys pr o)

/-- Witness for C1: a successful plain unit of work and a raising coroutine
unit of work each produce exactly one span. -/
theorem C1_one_span_one_status_witness :
    (trace "op" "live" Option.none Option.none Option.none
        (.plain (fun s => (s, .ok .none))) 0).1.length = 1 ∧
    (trace_llm "llm.request" "live" Option.none Option.none Option.none
        Option.none Option.none (.coroutineFn (.error ⟨1, "boom"⟩)) 0).1.length
      = 1 :=
  ⟨((C1_one_span_one_status "op" "live" Option.none Option.none Option.none 0
      Option.none Option.none).1 (.plain (fun s => (s, .ok .none)))
      (fun _ => rfl)).1,
   ((C1_one_span_one_status "llm.request" "live" Option.none Option.none
      Option.none 0 Option.none Option.none).2
      (.coroutineFn (.error ⟨1, "boom"⟩))).1⟩

/-- C1 counterexample: the status is not keyed on the unit of work alone, as
the original claim states.  Here the `trace_llm` unit of work returns
normally (its outcome is `.ok` of the response), yet the span's one terminal
status is ERROR — the unguarded extraction raises on
`usage.prompt_tokens = "10"` — and ERROR is not OK. -/
theorem C1_status_counterexample :
    outcomeOf (.plain
        (.ok (.vObj [("usage", .vObj [("prompt_tokens", .vStr "10")])])))
      = .ok (.vObj [("usage", .vObj [("prompt_tokens", .vStr "10")])]) ∧
    (trace_llm "llm.request" "live" Option.none Option.none Option.none
        Option.none Option.none
        (.plain (.ok (.vObj [("usage",
          .vObj [("prompt_tokens", .vStr "10")])]))) 0).1.map Span.statuses
      = [[SpanStatus.statusError addTypeError.msg]] ∧
    [[SpanStatus.statusError addTypeError.msg]] ≠ [[SpanStatus.statusOk]] :=
  ⟨rfl, rfl, by decide⟩

/-- C2: for every unit of work that raises, `trace`/`trace_llm` records the
exception object on the span, sets status ERROR carrying the exception's
message, and re-raises the very same exception object to the caller — the
outcome is that error, so no result value is returned. -/
theorem C2_failure_recorded_and_reraised (name environment : String)
    (svc : Option String) (md : Option (List (String × String)))
    (tg : Option (List String)) (sys pr : Option String) (dms : Int) (e : Exc) :
    ((_trace_sync name environment svc md tg (fun s => (s, .error e)) dms).2
        = .error e ∧
      ∀ sp ∈ (_trace_sync name environment svc md tg
          (fun s => (s, .error e)) dms).1,
        sp.recorded = [e] ∧ sp.statuses = [SpanStatus.statusError e.msg]) ∧
    ((_trace_async name environment svc md tg (fun s => (s, .error e)) dms).2
        = .error e ∧
      ∀ sp ∈ (_trace_async name environment svc md tg
          (fun s => (s, .error e)) dms).1,
        sp.recorded = [e] ∧ sp.statuses = [SpanStatus.statusError e.msg]) ∧
    (∀ fn : PyCallable, outcomeOf fn = .error e →
      (trace_llm name environment svc md tg sys pr fn dms).2 = .error e ∧
      ∀ sp ∈ (trace_llm name environment svc md tg sys pr fn dms).1,
        sp.recorded = [e] ∧ sp.statuses = [SpanStatus.statusError e.msg]) := by
  refine ⟨⟨rfl, ?_⟩, ⟨rfl, ?_⟩, ?_⟩
  · intro sp hsp
    simp only [_trace_sync, List.mem_singleton] at hsp
    subst hsp
    exact ⟨rfl, rfl⟩
  · intro sp hsp
    simp only [_trace_async, List.mem_singleton] at hsp
    subst hsp
    exact ⟨rfl, rfl⟩
  · intro fn hfn
    cases fn with
    | plain o =>
      cases o with
      | error e1 =>
        cases hfn
        constructor
        · rfl
        · intro sp hsp
          simp only [trace_llm, iscoroutinefunction, _trace_llm_sync,
            _trace_sync, outcomeOf, llmInner, if_false, Bool.false_eq_true,
            List.mem_singleton] at hsp
          subst hsp
          exact ⟨rfl, rfl⟩
      | ok r => exact absurd hfn (by simp [outcomeOf])
    | coroutineFn o =>
      cases o with
      | error e1 =>
        cases hfn
        constructor
        · rfl
        · intro sp hsp
          simp only [trace_llm, iscoroutinefunction, _trace_llm_async,
            _trace_async, outcomeOf, llmInner, if_true,
            List.mem_singleton] at hsp
          subst hsp
          exact ⟨rfl, rfl⟩
      | ok r => exact absurd hfn (by simp [outcomeOf])

/-- Witness for C2: a unit of work raising "rate limited" makes `trace_llm`
re-raise that very exception and mark the single span ERROR with the same
message. -/
theorem C2_failure_recorded_and_reraised_witness :
    (trace_llm "llm.request" "live" Option.none Option.none Option.none
        Option.none Option.none (.plain (.error ⟨7, "rate limited"⟩)) 0).2
      = .error ⟨7, "rate limited"⟩ ∧
    (trace_llm "llm.request" "live" Option.none Option.none Option.none
        Option.none Option.none (.plain (.error ⟨7, "rate limited"⟩)) 0).1.map
        Span.statuses
      = [[SpanStatus.statusError "rate limited"]] := by
  have h := (C2_failure_recorded_and_reraised "llm.request" "live" Option.none
    Option.none Option.none Option.none Option.none 0 ⟨7, "rate limited"⟩).2.2
    (.plain (.error ⟨7, "rate limited"⟩)) rfl
  exact ⟨h.1, rfl⟩

/-- C3 (code bug): `_trace_llm_sync` wraps post-call attribute extraction in
no `try/except`, so when the unit of work returns normally but extraction
raises — here `usage.prompt_tokens` is the string `"10"`, making the
`total_tokens` fallback add `str` and `int` — the `TypeError` propagates to
the caller and the span status is set to ERROR.  The claim (extraction
failures are caught and ignored, the status stays OK, the result is still
returned) does not hold on the code. -/
theorem C3_extraction_error_propagates :
    (_set_llm_post_attrs
        (.vObj [("usage", .vObj [("prompt_tokens", .vStr "10")])])).2
      = some addTypeError ∧
    (_trace_llm_sync "llm.request" "live" Option.none Option.none Option.none
        Option.none Option.none
        (.ok (.vObj [("usage", .vObj [("prompt_tokens", .vStr "10")])])) 0).2
      = .error addTypeError ∧
    (_trace_llm_sync "llm.request" "live" Option.none Option.none Option.none
        Option.none Option.none
        (.ok (.vObj [("usage", .vObj [("prompt_tokens", .vStr "10")])])) 0).1.map
        Span.statuses
      = [[SpanStatus.statusError addTypeError.msg]] :=
  ⟨rfl, rfl, rfl⟩

/-- C10: `trace` and `trace_llm` take the asynchronous path exactly when
`inspect.iscoroutinefunction` holds of the callable; a plain callable that
returns an awaitable runs on the synchronous path, the awaitable object
itself is returned un-awaited, and the post-call attributes are extracted
from that awaitable object — on which every attribute probe falls back to
its default, yielding no attributes at all — rather than from the settled
response. -/
theorem C10_dispatch_on_iscoroutinefunction (name environment : String)
    (svc : Option String) (md : Option (List (String × String)))
    (tg : Option (List String)) (sys pr : Option String) (dms : Int) :
    (∀ o, iscoroutinefunction (.plain o) = false ∧
          iscoroutinefunction (.coroutineFn o) = true) ∧
    (∀ fn : PyCallable, iscoroutinefunction fn = true →
      trace_llm name environment svc md tg sys pr fn dms =
        _trace_llm_async name environment svc md tg sys pr (outcomeOf fn) dms) ∧
    (∀ fn : PyCallable, iscoroutinefunction fn = false →
      trace_llm name environment svc md tg sys pr fn dms =
        _trace_llm_sync name environment svc md tg sys pr (outcomeOf fn) dms) ∧
    (∀ fnS : PyCallableS,
      (iscoroutinefunctionS fnS = true →
        trace name environment svc md tg fnS dms =
          _trace_async name environment svc md tg (runOf fnS) dms) ∧
      (iscoroutinefunctionS fnS = false →
        trace name environment svc md tg fnS dms =
          _trace_sync name environment svc md tg (runOf fnS) dms)) ∧
    (∀ r, _set_llm_post_attrs (.vAwaitable r) = ([], Option.none)) ∧
    (∀ r, (trace_llm name environment svc md tg sys pr
        (.plain (.ok (.vAwaitable r))) dms).2 = .ok (.vAwaitable r)) := by
  refine ⟨fun o => ⟨rfl, rfl⟩, ?_, ?_, ?_, fun r => rfl, fun r => rfl⟩
  · intro fn h
    cases fn with
    | plain o => exact absurd h (by simp [iscoroutinefunction])
    | coroutineFn o => rfl
  · intro fn h
    cases fn with
    | plain o => rfl
    | coroutineFn o => exact absurd h (by simp [iscoroutinefunction])
  · intro fnS
    cases fnS with
    | plain b => exact ⟨fun h => absurd h (by simp [iscoroutinefunctionS]),
        fun _ => rfl⟩
    | coroutineFn b => exact ⟨fun _ => rfl,
        fun h => absurd h (by simp [iscoroutinefunctionS])⟩

/-- Witness for C10: a plain callable goes to the synchronous path, and one
returning an un-awaited awaitable gets that very awaitable back as result. -/
theorem C10_dispatch_on_iscoroutinefunction_witness :
    trace_llm "op" "live" Option.none Option.none Option.none Option.none
        Option.none (.plain (.ok .none)) 0 =
      _trace_llm_sync "op" "live" Option.none Option.none Option.none
        Option.none Option.none (.ok .none) 0 ∧
    (trace_llm "op" "live" Option.none Option.none Option.none Option.none
        Option.none (.plain (.ok (.vAwaitable (.vStr "settled")))) 0).2
      = .ok (.vAwaitable (.vStr "settled")) :=
  ⟨(C10_dispatch_on_iscoroutinefunction "op" "live" Option.none Option.none
      Option.none Option.none Option.none 0).2.2.1 (.plain (.ok .none)) rfl,
   (C10_dispatch_on_iscoroutinefunction "op" "live" Option.none Option.none
      Option.none Option.none Option.none 0).2.2.2.2.2 (.vStr "settled")⟩

/-- C6 counterexample: a usage object reporting `total_tokens = 0` alongside
prompt 2 and completion 3.  The provider reports a total (0), but the
recorded total is 5 = prompt + completion: the code's `or` falls through on
the falsy reported value, so the provider-reported total does not win. -/
theorem C6_counterexample :
    getattrD (getattrD (.vObj [("usage", .vObj [("total_tokens", .vInt 0),
          ("prompt_tokens", .vInt 2), ("completion_tokens", .vInt 3)])])
        "usage" .none) "total_tokens" .none = .vInt 0 ∧
    ((_set_llm_post_attrs (.vObj [("usage", .vObj [("total_tokens", .vInt 0),
          ("prompt_tokens", .vInt 2), ("completion_tokens", .vInt 3)])])).1.lookup
        LLM_USAGE_TOTAL_TOKENS) = some (.vInt 5) :=
  ⟨rfl, rfl⟩

/-- C6 (amended): for a truthy usage sub-object whose or-chain token reads
yield integers, the total is the provider-reported `total_tokens` only when
that report is nonzero (truthy); a zero or absent report yields prompt plus
completion; and the total-token attribute is written exactly when the
resulting total value is truthy. -/
theorem C6_total_tokens (u : PyVal) (p c : Int)
    (hp : pyOr (pyOr (getattrD u "prompt_tokens" .none)
        (getattrD u "input_tokens" .none)) (.vInt 0) = .vInt p)
    (hc : pyOr (pyOr (getattrD u "completion_tokens" .none)
        (getattrD u "output_tokens" .none)) (.vInt 0) = .vInt c) :
    (∀ t : Int, getattrD u "total_tokens" .none = .vInt t → t ≠ 0 →
        usageTokens u = .ok (.vInt p, .vInt c, .vInt t)) ∧
    (getattrD u "total_tokens" .none = .vInt 0 →
        usageTokens u = .ok (.vInt p, .vInt c, .vInt (p + c))) ∧
    (getattrD u "total_tokens" .none = .none →
        usageTokens u = .ok (.vInt p, .vInt c, .vInt (p + c))) ∧
    (∀ r, getattrD r "usage" .none = u → truthy u = true →
      ∀ pt ct tt, usageTokens u = .ok (pt, ct, tt) →
        ((truthy tt = true →
            (LLM_USAGE_TOTAL_TOKENS, tt) ∈ (_set_llm_post_attrs r).1) ∧
         (truthy tt = false →
            ∀ v, (LLM_USAGE_TOTAL_TOKENS, v) ∉ (_set_llm_post_attrs r).1))) := by
  refine ⟨?_, ?_, ?_, ?_⟩
  · intro t ht hnz
    simp [usageTokens, hp, hc, ht, truthy, hnz, Bind.bind, Except.bind, pure,
      Except.pure]
  · intro ht
    simp [usageTokens, hp, hc, ht, truthy, pyAdd, Bind.bind, Except.bind, pure,
      Except.pure]
  · intro ht
    simp [usageTokens, hp, hc, ht, truthy, pyAdd, Bind.bind, Except.bind, pure,
      Except.pure]
  · intro r hru hu pt ct tt htok
    constructor
    · intro htt
      simp only [_set_llm_post_attrs, hru, hu, if_true, htok, htt,
        List.mem_append]
      rcases hcost : _calculate_cost
          (pyOr (getattrD r "model" (.vStr "")) (.vStr "")) pt ct with e | cost
      · simp [List.mem_append]
      · simp [List.mem_append]
    · intro htt v hmem
      simp only [_set_llm_post_attrs, hru, hu, if_true, htok, htt,
        Bool.false_eq_true, if_false, List.append_nil] at hmem
      rcases hcost : _calculate_cost
          (pyOr (getattrD r "model" (.vStr "")) (.vStr "")) pt ct with e | cost <;>
        rw [hcost] at hmem <;>
        simp only [List.mem_append] at hmem <;>
        [rcases hmem with ((((hm | hm) | hm) | hm) | hm);
         rcases hmem with (((((hm | hm) | hm) | hm) | hm) | hm)] <;>
        (try split at hm) <;>
        simp_all [LLM_RESPONSE_MODEL, LLM_RESPONSE_ID, LLM_COMPLETION,
          LLM_USAGE_PROMPT_TOKENS, LLM_USAGE_COMPLETION_TOKENS,
          LLM_USAGE_TOTAL_TOKENS, LUMINA_COST_USD]

/-- Witness for C6 (amended): a usage object reporting a nonzero total 15
with prompt 2, completion 3 — the reported total wins and the attribute is
written with value 15. -/
theorem C6_total_tokens_witness :
    usageTokens (.vObj [("prompt_tokens", .vInt 2),
        ("completion_tokens", .vInt 3), ("total_tokens", .vInt 15)])
      = .ok (.vInt 2, .vInt 3, .vInt 15) ∧
    (LLM_USAGE_TOTAL_TOKENS, PyVal.vInt 15) ∈
      (_set_llm_post_attrs (.vObj [("usage", .vObj [("prompt_tokens", .vInt 2),
        ("completion_tokens", .vInt 3), ("total_tokens", .vInt 15)])])).1 := by
  have h := C6_total_tokens (.vObj [("prompt_tokens", .vInt 2),
    ("completion_tokens", .vInt 3), ("total_tokens", .vInt 15)]) 2 3 rfl rfl
  have h1 := h.1 15 rfl (by decide)
  exact ⟨h1, (h.2.2.2 (.vObj [("usage", .vObj [("prompt_tokens", .vInt 2),
    ("completion_tokens", .vInt 3), ("total_tokens", .vInt 15)])])
    rfl rfl _ _ _ h1).1 rfl⟩

/-- C8 (code bug): the pricing table lists the general key "gpt-4" before
the more specific key "gpt-4-turbo" of which it is a proper substring, so
first-substring-match selects the gpt-4 prices for every gpt-4-turbo model
and the table's own gpt-4-turbo entry (10, 30) is unreachable: one million
prompt plus one million completion tokens on "gpt-4-turbo" cost 90 USD (the
gpt-4 rate 30 + 60) instead of 40. -/
theorem C8_pricing_order_violation :
    ¬ ((_PRICING.map Prod.fst).Pairwise
        (fun earlier later => strContains later earlier = false ∨
          earlier = later)) ∧
    _PRICING.lookup "gpt-4-turbo" = some (10, 30) ∧
    _calculate_cost (.vStr "gpt-4-turbo") (.vInt 1000000) (.vInt 1000000)
      = .ok 90 := by
  refine ⟨by decide, rfl, ?_⟩
  have hfind : (_PRICING.map Prod.fst).find?
      (fun k => strContains "gpt-4-turbo" k) = some "gpt-4" := rfl
  have hval : ((1000000 : Int) : Rat) / 1000000 * 30 +
      ((1000000 : Int) : Rat) / 1000000 * 60 = 90 := by norm_num
  calc _calculate_cost (.vStr "gpt-4-turbo") (.vInt 1000000) (.vInt 1000000)
      = .ok (((1000000 : Int) : Rat) / 1000000 * 30 +
             ((1000000 : Int) : Rat) / 1000000 * 60) := by
        unfold _calculate_cost
        rw [firstKeyIn_str, hfind]
        rfl
    _ = .ok 90 := by rw [hval]

/-- C9 counterexample: with the default environment, overriding only
`batch_interval_ms` to 6000 leaves `flush_interval_ms` at the
environment-derived 5000 — the flush interval does not mirror the overridden
batch interval. -/
theorem C9_counterexample :
    (load_sdk_config [] (some [("batch_interval_ms", PyVal.vInt 6000)])).map
      (fun c => (c.batch_interval_ms, c.flush_interval_ms))
      = .ok (.vInt 6000, .vInt 5000) := by
  rfl

/-- `setattr` on any key other than the two interval fields leaves both
interval fields unchanged. -/
theorem setField_preserves_intervals (c : SdkConfig) (k : String) (v : PyVal)
    (hb : k ≠ "batch_interval_ms") (hf : k ≠ "flush_interval_ms") :
    (setField c k v).batch_interval_ms = c.batch_interval_ms ∧
    (setField c k v).flush_interval_ms = c.flush_interval_ms := by
  unfold setField
  split <;> simp_all

/-- The override loop leaves both interval fields unchanged when it carries
no non-`None` entry for either of them. -/
theorem applyOverrides_intervals (l : List (String × PyVal)) :
    ∀ c : SdkConfig,
      (∀ v, ("batch_interval_ms", v) ∈ l → v = PyVal.none) →
      (∀ v, ("flush_interval_ms", v) ∈ l → v = PyVal.none) →
      (applyOverrides c l).batch_interval_ms = c.batch_interval_ms ∧
      (applyOverrides c l).flush_interval_ms = c.flush_interval_ms := by
  induction l with
  | nil => intro c _ _; exact ⟨rfl, rfl⟩
  | cons kv rest ih =>
    intro c hb hf
    rcases kv with ⟨k, v⟩
    have hbr : ∀ v1, ("batch_interval_ms", v1) ∈ rest → v1 = PyVal.none :=
      fun v1 h1 => hb v1 (List.mem_cons_of_mem _ h1)
    have hfr : ∀ v1, ("flush_interval_ms", v1) ∈ rest → v1 = PyVal.none :=
      fun v1 h1 => hf v1 (List.mem_cons_of_mem _ h1)
    by_cases hv : isNone v = true
    · have := ih c hbr hfr
      simpa [applyOverrides, hv] using this
    · have hkb : k ≠ "batch_interval_ms" := by
        intro hk
        subst hk
        have := hb v (List.mem_cons_self _ _)
        subst this
        exact hv rfl
      have hkf : k ≠ "flush_interval_ms" := by
        intro hk
        subst hk
        have := hf v (List.mem_cons_self _ _)
        subst this
        exact hv rfl
      have hset := setField_preserves_intervals c k v hkb hkf
      have := ih (setField c k v) hbr hfr
      simp only [applyOverrides, hv, if_false, Bool.false_eq_true] at *
      exact ⟨this.1.trans hset.1, this.2.trans hset.2⟩

/-- C9 (amended): for every environment and every override map that supplies
a non-`None` value for neither `batch_interval_ms` nor `flush_interval_ms`,
the loaded settings record has `flush_interval_ms` equal to
`batch_interval_ms`.  (The counterexample shows a non-`None`
`batch_interval_ms` override breaks the mirror, updating only the batch
interval.) -/
theorem C9_flush_mirrors_batch (env : List (String × String))
    (ov : Option (List (String × PyVal)))
    (hb : ∀ v, ("batch_interval_ms", v) ∈ ov.getD [] → v = PyVal.none)
    (hf : ∀ v, ("flush_interval_ms", v) ∈ ov.getD [] → v = PyVal.none) :
    ∀ cfg, load_sdk_config env ov = .ok cfg →
      cfg.flush_interval_ms = cfg.batch_interval_ms := by
  intro cfg hcfg
  unfold load_sdk_config at hcfg
  rcases h1 : pyIntOf (envGet env "LUMINA_BATCH_INTERVAL_MS" "5000") with e1 | n1 <;>
    rw [h1] at hcfg <;>
    simp only [Bind.bind, Except.bind] at hcfg
  · exact absurd hcfg (by simp)
  rcases h2 : pyIntOf (envGet env "LUMINA_BATCH_SIZE" "10") with e2 | n2 <;>
    rw [h2] at hcfg
  · exact absurd hcfg (by simp)
  rcases h3 : pyIntOf (envGet env "LUMINA_MAX_RETRIES" "3") with e3 | n3 <;>
    rw [h3] at hcfg
  · exact absurd hcfg (by simp)
  rcases h4 : pyIntOf (envGet env "LUMINA_TIMEOUT_MS" "30000") with e4 | n4 <;>
    rw [h4] at hcfg
  · exact absurd hcfg (by simp)
  cases ov with
  | none =>
    simp only [pure, Except.pure, Except.ok.injEq] at hcfg
    subst hcfg
    rfl
  | some l =>
    simp only [pure, Except.pure, Except.ok.injEq] at hcfg
    by_cases hl : l.isEmpty
    · rw [if_pos hl] at hcfg
      subst hcfg
      rfl
    · rw [if_neg hl] at hcfg
      subst hcfg
      rw [(applyOverrides_intervals l _ (by simpa using hb)
            (by simpa using hf)).1,
          (applyOverrides_intervals l _ (by simpa using hb)
            (by simpa using hf)).2]

/-- Witness for C9 (amended): batch interval 7000 from the environment and a
service-name-only override — flush equals batch in the loaded config. -/
theorem C9_flush_mirrors_batch_witness :
    (load_sdk_config [("LUMINA_BATCH_INTERVAL_MS", "7000")]
        (some [("service_name", PyVal.vStr "svc")])).map
      SdkConfig.flush_interval_ms =
    (load_sdk_config [("LUMINA_BATCH_INTERVAL_MS", "7000")]
        (some [("service_name", PyVal.vStr "svc")])).map
      SdkConfig.batch_interval_ms := by
  rcases hload : load_sdk_config [("LUMINA_BATCH_INTERVAL_MS", "7000")]
      (some [("service_name", PyVal.vStr "svc")]) with e | cfg
  · rfl
  · have h := C9_flush_mirrors_batch [("LUMINA_BATCH_INTERVAL_MS", "7000")]
      (some [("service_name", PyVal.vStr "svc")])
      (by intro v hv; simp at hv) (by intro v hv; simp at hv) cfg hload
    simp [Except.map, h]

end Lumina


